import Mathlib

/-!
Shallow embedding of `src/example_program.py` (Quantel Merion C laser client).

Modelling conventions:
* Python `bytes` and `str` values are both `List Nat` of byte values; all
  protocol data in this program is ASCII, where UTF-8 encode/decode is the
  identity on byte values, so `str.encode`/`bytes.decode` are the identity.
* The `Telnet` handle held in `self._connection` is `Option Bool`:
  `none` models `_connection is None` (never opened), `some b` models a
  `Telnet` object whose underlying socket is open iff `b` (after
  `Telnet.close()` the attribute still holds the object, so the model is `some false`).
* Python exceptions escaping a method are the `Except.error` branch; the
  string carries the exception kind.
* External nondeterminism (did the TCP connect succeed, did the socket write
  raise, which bytes did `Telnet.read_until` return) enters as explicit
  parameters, since the embedded functions are pure.
-/

deriving instance DecidableEq for Except

namespace Merion

/-- Class constant `MerionLaserConnection.SEND_PACKET_TERMINATOR`, the CRLF bytes. -/
def SEND_PACKET_TERMINATOR : List Nat := [13, 10]

/-- Class constant `MerionLaserConnection.READ_PACKET_TERMINATOR`: line feed, `>`, space. -/
def READ_PACKET_TERMINATOR : List Nat := [10, 62, 32]

/-- Bytes of an ASCII Lean string, for writing concrete byte lists. -/
def strToBytes (s : String) : List Nat := s.data.map Char.toNat

/-- Test that `t` is an initial segment of `s` (helper for embedding
`bytes.partition` and suffix tests). -/
def leadsWith : List Nat → List Nat → Bool
  | [], _ => true
  | _ :: _, [] => false
  | a :: as, b :: bs => a == b && leadsWith as bs

/-- Test that `t` occurs as a contiguous run inside `s` (Python `t in s`
on bytes). -/
def containsSub (t : List Nat) : List Nat → Bool
  | [] => leadsWith t []
  | b :: rest => leadsWith t (b :: rest) || containsSub t rest

/-- Test that `s` ends with the run `t` (Python `s.endswith(t)`). -/
def endsWithL (t s : List Nat) : Bool := leadsWith t.reverse s.reverse

/-- First component of Python `s.partition(t)` for non-empty `t`: the bytes
before the first occurrence of `t` in `s`, or all of `s` when `t` is absent. -/
def partitionBefore (t : List Nat) : List Nat → List Nat
  | [] => []
  | b :: rest => if leadsWith t (b :: rest) then [] else b :: partitionBefore t rest

/-- The ASCII characters Python `str.strip()` removes. -/
def isPySpace (c : Nat) : Bool :=
  c == 32 || c == 9 || c == 10 || c == 13 || c == 11 || c == 12

/-- Python `str.strip()` on ASCII text. -/
def pyStrip (l : List Nat) : List Nat :=
  ((l.dropWhile isPySpace).reverse.dropWhile isPySpace).reverse

/-- Value of one hexadecimal digit character, if it is one. -/
def hexDigitVal (c : Nat) : Option Nat :=
  if 48 ≤ c ∧ c ≤ 57 then some (c - 48)
  else if 97 ≤ c ∧ c ≤ 102 then some (c - 87)
  else if 65 ≤ c ∧ c ≤ 70 then some (c - 55)
  else none

/-- Remaining digits of a base-16 literal after the first digit: hex digits
with single underscores allowed between digits (the CPython grammar). -/
def hexRest : List Nat → Nat → Option Nat
  | [], acc => some acc
  | c :: rest, acc =>
    if c == 95 then
      match rest with
      | [] => none
      | c2 :: rest2 =>
        match hexDigitVal c2 with
        | some d => hexRest rest2 (acc * 16 + d)
        | none => none
    else
      match hexDigitVal c with
      | some d => hexRest rest (acc * 16 + d)
      | none => none

/-- A non-empty run of hex digits (underscores only between digits). -/
def hexDigitsVal : List Nat → Option Nat
  | [] => none
  | c :: rest =>
    match hexDigitVal c with
    | some d => hexRest rest d
    | none => none

/-- Digits after an accepted `0x`/`0X`: one underscore may follow the marker. -/
def hexAfterMarker : List Nat → Option Nat
  | 95 :: rest => hexDigitsVal rest
  | l => hexDigitsVal l

/-- Unsigned part of a base-16 literal: optional `0x`/`0X` marker, then digits. -/
def hexUnsigned : List Nat → Option Nat
  | 48 :: x :: rest =>
    if x == 120 || x == 88 then hexAfterMarker rest
    else hexDigitsVal (48 :: x :: rest)
  | l => hexDigitsVal l

/-- CPython `int(s, 16)` on ASCII text: surrounding whitespace, an optional
sign, an optional `0x`/`0X` marker, then hex digits (underscores between
digits). `none` models the `ValueError` the call raises otherwise. -/
def int_base16 (s : List Nat) : Option Int :=
  match pyStrip s with
  | 43 :: rest => (hexUnsigned rest).map Int.ofNat
  | 45 :: rest => (hexUnsigned rest).map (fun n => -(n : Int))
  | t => (hexUnsigned t).map Int.ofNat

/-- Outcome of the `Telnet(host, port, timeout)` constructor call in
`open_connection`: success, the two exception types the method catches, or
any other exception (e.g. `socket.gaierror`), which it does not catch. -/
inductive ConnectOutcome where
  | ok
  | refused
  | timedOut
  | otherError
deriving DecidableEq

/-- Embeds `MerionLaserConnection.open_connection`. Takes the prior `_connection`
and the constructor outcome; returns the method result and new `_connection`,
or `Except.error` for an exception the method does not catch. -/
def open_connection (conn : Option Bool) : ConnectOutcome → Except String (Bool × Option Bool)
  | .ok => .ok (true, some true)
  | .refused => .ok (false, conn)
  | .timedOut => .ok (false, conn)
  | .otherError => .error "unhandled exception from Telnet constructor"

/-- Embeds `MerionLaserConnection.close_connection`: calls the close method
when the attribute is set; it never resets the attribute to `None`. -/
def close_connection : Option Bool → Option Bool
  | none => none
  | some _ => some false

/-- The message of the `assert self._connection` contract checks. -/
def assertMsg : String := "AssertionError: Socket connection to laser must be open"

/-- The f-string `cmd_str` built in `send_command_to_laser`:
`parameter` non-empty takes precedence, then `value`, else the bare path. -/
def cmd_str_structured (command tree branch function parameter value : List Nat) : List Nat :=
  if parameter ≠ [] then
    command ++ [32, 47] ++ tree ++ [47] ++ branch ++ [47] ++ function ++ [32] ++ parameter
  else if value ≠ [] then
    command ++ [32, 47] ++ tree ++ [47] ++ branch ++ [47] ++ function ++ [32] ++ value
  else
    command ++ [32, 47] ++ tree ++ [47] ++ branch ++ [47] ++ function

/-- The f-string `cmd_str` built in `send_alias_command_to_laser`. -/
def cmd_str_alias (aliasName value : List Nat) : List Nat :=
  if value ≠ [] then aliasName ++ [32] ++ value else aliasName

/-- Embeds `MerionLaserConnection.send_command_to_laser`. `writeOk` is whether the
socket write succeeded; the result carries the returned bool and the bytes
handed to `self._connection.write` (always `cmd_str` plus the terminator).
The `assert` failing on an unset `_connection` is the `Except.error`. -/
def send_command_to_laser (conn : Option Bool) (writeOk : Bool)
    (command tree branch function parameter value : List Nat) :
    Except String (Bool × List Nat) :=
  let cmd_str := cmd_str_structured command tree branch function parameter value
  if conn.isSome then .ok (writeOk, cmd_str ++ SEND_PACKET_TERMINATOR)
  else .error assertMsg

/-- Embeds `MerionLaserConnection.send_alias_command_to_laser`, modelled like
`send_command_to_laser`. -/
def send_alias_command_to_laser (conn : Option Bool) (writeOk : Bool)
    (aliasName value : List Nat) : Except String (Bool × List Nat) :=
  let cmd_str := cmd_str_alias aliasName value
  if conn.isSome then .ok (writeOk, cmd_str ++ SEND_PACKET_TERMINATOR)
  else .error assertMsg

/-- Embeds `MerionLaserConnection.read_response`. `raw` is what
`read_until(READ_PACKET_TERMINATOR, timeout)` returned (empty when nothing
arrived before the timeout). Falsy `response` gives `None`; otherwise the
part before the first terminator occurrence is kept, and a falsy (empty)
part again gives `None`; otherwise it is decoded and stripped. -/
def read_response (conn : Option Bool) (raw : List Nat) :
    Except String (Option (List Nat)) :=
  if conn.isSome then
    .ok (if raw = [] then none
      else
        let result := partitionBefore READ_PACKET_TERMINATOR raw
        if result = [] then none else some (pyStrip result))
  else .error assertMsg

/-- Embeds `MerionCLaser.get_current_state`: sends the `state` alias command, reads
the response; a truthy response is parsed with `int(resp, 16)` (whose
`ValueError` escapes as `Except.error`), a falsy one gives `-1`. -/
def get_current_state (conn : Option Bool) (writeOk : Bool) (raw : List Nat) :
    Except String Int := do
  let _ ← send_alias_command_to_laser conn writeOk (strToBytes "state") []
  let resp ← read_response conn raw
  match resp with
  | some r =>
    if r ≠ [] then
      match int_base16 r with
      | some n => .ok n
      | none => .error "ValueError: invalid literal for int with base 16"
    else .ok (-1)
  | none => .ok (-1)


/-- Characterization of `leadsWith`: it holds exactly when `s` extends `t`. -/
theorem leadsWith_iff_exists (t : List Nat) : ∀ s, leadsWith t s = true ↔ ∃ r, s = t ++ r := by
  induction t with
  | nil => intro s; simp [leadsWith]
  | cons a as ih =>
    intro s
    cases s with
    | nil =>
      simp [leadsWith]
    | cons b bs =>
      simp only [leadsWith, Bool.and_eq_true, beq_iff_eq, ih]
      constructor
      · rintro ⟨rfl, r, rfl⟩
        exact ⟨r, rfl⟩
      · rintro ⟨r, h⟩
        injection h with h1 h2
        exact ⟨h1.symm, r, h2⟩

theorem leadsWith_append (t r : List Nat) : leadsWith t (t ++ r) = true :=
  (leadsWith_iff_exists t _).mpr ⟨r, rfl⟩

/-- If `t` begins the stream `b :: (P ++ t ++ T)` then it also begins
`b :: (P ++ t.dropLast)` (the occurrence lies inside that shorter list). -/
theorem leadsWith_shift (t P T : List Nat) (b : Nat) (ht : t ≠ [])
    (h : leadsWith t (b :: (P ++ t ++ T)) = true) :
    leadsWith t (b :: (P ++ t.dropLast)) = true := by
  obtain ⟨r, hr⟩ := (leadsWith_iff_exists t _).mp h
  have hA : b :: (P ++ t ++ T) = (b :: (P ++ t.dropLast)) ++ ([t.getLast ht] ++ T) := by
    conv_lhs => rw [← List.dropLast_append_getLast ht]
    simp
  have hlen : t.length ≤ (b :: (P ++ t.dropLast)).length := by
    simp only [List.length_cons, List.length_append, List.length_dropLast]
    have : 1 ≤ t.length := by
      cases t with
      | nil => exact absurd rfl ht
      | cons c cs => simp
    omega
  have htake : List.take t.length ((b :: (P ++ t.dropLast)) ++ ([t.getLast ht] ++ T)) =
      List.take t.length (b :: (P ++ t.dropLast)) := List.take_append_of_le_length hlen
  have htake2 : List.take t.length (t ++ r) = t := List.take_left t r
  rw [← hA, hr] at htake
  rw [htake2] at htake
  have hsplit : b :: (P ++ t.dropLast) =
      List.take t.length (b :: (P ++ t.dropLast)) ++
        List.drop t.length (b :: (P ++ t.dropLast)) :=
    (List.take_append_drop _ _).symm
  rw [← htake] at hsplit
  exact (leadsWith_iff_exists t _).mpr ⟨_, hsplit⟩

/-- Where `bytes.partition` splits: if `t` does not occur in `P ++ t.dropLast`
(so its first occurrence in `P ++ t ++ T` is the one right after `P`),
the part before the split is exactly `P`. -/
theorem partitionBefore_first (t P T : List Nat) (ht : t ≠ [])
    (h : containsSub t (P ++ t.dropLast) = false) :
    partitionBefore t (P ++ t ++ T) = P := by
  induction P with
  | nil =>
    cases t with
    | nil => exact absurd rfl ht
    | cons c t' =>
      simp only [List.nil_append, List.cons_append]
      rw [partitionBefore]
      rw [show (c :: (t' ++ T)) = (c :: t') ++ T from by simp]
      rw [leadsWith_append]
      simp
  | cons b P' ih =>
    have hu : containsSub t ((b :: P') ++ t.dropLast) = false := h
    rw [show (b :: P') ++ t.dropLast = b :: (P' ++ t.dropLast) from by simp] at hu
    rw [containsSub] at hu
    simp only [Bool.or_eq_false_iff] at hu
    obtain ⟨hlw, hcs⟩ := hu
    have hstream : (b :: P') ++ t ++ T = b :: (P' ++ t ++ T) := by simp
    rw [hstream, partitionBefore]
    have hlw2 : leadsWith t (b :: (P' ++ t ++ T)) = false := by
      by_contra hc
      rw [Bool.not_eq_false] at hc
      have := leadsWith_shift t P' T b ht (by simpa using hc)
      rw [this] at hlw
      exact Bool.true_eq_false.mp hlw
    rw [hlw2]
    have ih2 := ih hcs
    rw [List.append_assoc] at ih2
    simp [ih2]


/-- Extending both lists by the same front leaves `leadsWith` unchanged. -/
theorem leadsWith_append_left (a x y : List Nat) :
    leadsWith (a ++ x) (a ++ y) = leadsWith x y := by
  induction a with
  | nil => rfl
  | cons c cs ih => simp [leadsWith, ih]

theorem endsWithL_append_self (t s : List Nat) : endsWithL t (s ++ t) = true := by
  unfold endsWithL
  rw [List.reverse_append]
  exact leadsWith_append t.reverse s.reverse

theorem endsWithL_double (t s : List Nat) :
    endsWithL (t ++ t) (s ++ t) = endsWithL t s := by
  unfold endsWithL
  rw [List.reverse_append, List.reverse_append]
  exact leadsWith_append_left t.reverse t.reverse s.reverse

/-- C2: a stream of payload bytes, then the first occurrence of the receive
terminator, then arbitrary trailing bytes, makes `read_response` return
exactly the payload stripped of surrounding whitespace; neither the
terminator nor the trailing bytes appear in the result. -/
theorem C2_read_response_framing (P T : List Nat)
    (hfirst : containsSub READ_PACKET_TERMINATOR
      (P ++ READ_PACKET_TERMINATOR.dropLast) = false)
    (hP : P ≠ []) :
    read_response (some true) (P ++ READ_PACKET_TERMINATOR ++ T) =
      .ok (some (pyStrip P)) := by
  have hterm : READ_PACKET_TERMINATOR ≠ [] := by decide
  have hp := partitionBefore_first READ_PACKET_TERMINATOR P T hterm hfirst
  rw [List.append_assoc] at hp
  have hne : P ++ READ_PACKET_TERMINATOR ++ T ≠ [] := by
    cases P with
    | nil => exact absurd rfl hP
    | cons c cs => simp
  simp [read_response, hne, hp, hP]

/-- Witness for C2 at the concrete stream `b"00F2\n> junk"`. -/
theorem C2_read_response_framing_witness :
    read_response (some true)
        (strToBytes "00F2" ++ READ_PACKET_TERMINATOR ++ strToBytes "junk") =
      .ok (some (pyStrip (strToBytes "00F2"))) :=
  C2_read_response_framing (strToBytes "00F2") (strToBytes "junk")
    (by decide) (by decide)

/-- C1 (amended): `get_current_state` returns `-1` when the response is
absent or falsy, and the parsed integer for a response that parses as
base 16; but a non-empty response that is not valid base-16 text (such as
`"zz"`) makes `int(resp, 16)` raise `ValueError`, which escapes the call
rather than becoming `-1`. -/
theorem C1_get_current_state_sentinel :
    (∀ wOk, get_current_state (some true) wOk [] = .ok (-1)) ∧
    (∀ wOk raw, read_response (some true) raw = .ok none →
      get_current_state (some true) wOk raw = .ok (-1)) ∧
    (∀ wOk raw r n, read_response (some true) raw = .ok (some r) →
      int_base16 r = some n → get_current_state (some true) wOk raw = .ok n) ∧
    (∀ wOk raw r, read_response (some true) raw = .ok (some r) → r ≠ [] →
      int_base16 r = none →
      get_current_state (some true) wOk raw =
        .error "ValueError: invalid literal for int with base 16") := by
  refine ⟨fun wOk => rfl, fun wOk raw h => ?_, fun wOk raw r n h hn => ?_, fun wOk raw r h hr hn => ?_⟩
  · simp [get_current_state, send_alias_command_to_laser, Bind.bind, Except.bind, h]
  · have hr : r ≠ [] := by
      intro he
      subst he
      simp [int_base16, pyStrip, hexUnsigned, hexDigitsVal] at hn
    simp [get_current_state, send_alias_command_to_laser, Bind.bind, Except.bind, h, hr, hn]
  · simp [get_current_state, send_alias_command_to_laser, Bind.bind, Except.bind, h, hr, hn]

/-- Witness for C1 at the concrete streams `b"00F2\n> "` and `b"zz\n> "`. -/
theorem C1_get_current_state_sentinel_witness :
    get_current_state (some true) true (strToBytes "00F2" ++ READ_PACKET_TERMINATOR) =
        .ok 242 ∧
    get_current_state (some true) true (strToBytes "zz" ++ READ_PACKET_TERMINATOR) =
        .error "ValueError: invalid literal for int with base 16" :=
  ⟨C1_get_current_state_sentinel.2.2.1 true _ (strToBytes "00F2") 242
      (by decide) (by decide),
    C1_get_current_state_sentinel.2.2.2 true _ (strToBytes "zz")
      (by decide) (by decide) (by decide)⟩

/-- C1 counterexample: the claim says an invalid base-16 response such as
`"zz"` yields `-1` with no fault crossing the client boundary, but on the
stream `b"zz\n> "` the call raises (`Except.error`), not `-1`. -/
theorem C1_counterexample :
    get_current_state (some true) true (strToBytes "zz" ++ READ_PACKET_TERMINATOR) =
        .error "ValueError: invalid literal for int with base 16" ∧
    get_current_state (some true) true (strToBytes "zz" ++ READ_PACKET_TERMINATOR) ≠
        .ok (-1) := by
  constructor
  · decide
  · decide

/-- C3 (amended): `read_response` returns `none` exactly when the underlying
read yielded no bytes or the bytes before the first terminator occurrence
are empty; a whitespace-only non-empty payload instead returns the empty
string (falsy but not `none`). -/
theorem C3_read_response_none_iff :
    ∀ raw, read_response (some true) raw = .ok none ↔
      (raw = [] ∨ partitionBefore READ_PACKET_TERMINATOR raw = []) := by
  intro raw
  by_cases h0 : raw = []
  · simp [read_response, h0]
  · by_cases h1 : partitionBefore READ_PACKET_TERMINATOR raw = []
    · simp [read_response, h0, h1]
    · simp [read_response, h0, h1]

/-- C3 counterexample: on the stream `b" \n> "` the text before the
terminator strips to the empty string, yet `read_response` returns the
empty string, not `none`. -/
theorem C3_counterexample :
    read_response (some true) [32, 10, 62, 32] = .ok (some []) ∧
    pyStrip (partitionBefore READ_PACKET_TERMINATOR [32, 10, 62, 32]) = [] ∧
    read_response (some true) [32, 10, 62, 32] ≠ .ok none := by
  refine ⟨by decide, by decide, by decide⟩

/-- C4: the structured-command encoding follows the documented template and
precedence (`parameter` over `value`), and the concrete example encodes to
`b"propget /osc/diode/cpw limitmax\r\n"`. -/
theorem C4_structured_encoding :
    (∀ wOk command tree branch function parameter value,
      send_command_to_laser (some true) wOk command tree branch function parameter value =
        .ok (wOk,
          (if parameter ≠ [] then
            command ++ strToBytes " /" ++ tree ++ strToBytes "/" ++ branch ++
              strToBytes "/" ++ function ++ strToBytes " " ++ parameter
          else if value ≠ [] then
            command ++ strToBytes " /" ++ tree ++ strToBytes "/" ++ branch ++
              strToBytes "/" ++ function ++ strToBytes " " ++ value
          else
            command ++ strToBytes " /" ++ tree ++ strToBytes "/" ++ branch ++
              strToBytes "/" ++ function) ++ SEND_PACKET_TERMINATOR)) ∧
    send_command_to_laser (some true) true (strToBytes "propget") (strToBytes "osc")
        (strToBytes "diode") (strToBytes "cpw") (strToBytes "limitmax") [] =
      .ok (true, strToBytes "propget /osc/diode/cpw limitmax\r\n") := by
  constructor
  · intro wOk command tree branch function parameter value
    have e1 : strToBytes " /" = [32, 47] := rfl
    have e2 : strToBytes "/" = [47] := rfl
    have e3 : strToBytes " " = [32] := rfl
    rw [e1, e2, e3]
    by_cases hp : parameter = []
    · by_cases hv : value = [] <;>
        simp [send_command_to_laser, cmd_str_structured, hp, hv]
    · simp [send_command_to_laser, cmd_str_structured, hp]
  · decide

/-- C5: `open_connection` returns `True` on success (the handle becomes
set and open); a refused or timed-out connect returns `False` with the
handle unchanged (`None` stays `None`) and no exception escaping. -/
theorem C5_open_connection_result :
    open_connection none .refused = .ok (false, none) ∧
    open_connection none .timedOut = .ok (false, none) ∧
    (∀ conn, open_connection conn .refused = .ok (false, conn)) ∧
    (∀ conn, open_connection conn .timedOut = .ok (false, conn)) ∧
    (∀ conn, open_connection conn .ok = .ok (true, some true)) :=
  ⟨rfl, rfl, fun _ => rfl, fun _ => rfl, fun _ => rfl⟩

/-- C6: with `_connection` unset, `send_command_to_laser`,
`send_alias_command_to_laser` and `read_response` all fail their `assert`
(an `AssertionError`, not a returned value); with it set, the assertion
never fires. -/
theorem C6_assert_preconditions :
    (∀ wOk command tree branch function parameter value,
      send_command_to_laser none wOk command tree branch function parameter value =
        .error assertMsg) ∧
    (∀ wOk aliasName value,
      send_alias_command_to_laser none wOk aliasName value = .error assertMsg) ∧
    (∀ raw, read_response none raw = .error assertMsg) ∧
    (∀ h wOk command tree branch function parameter value,
      (send_command_to_laser (some h) wOk command tree branch function parameter value).isOk =
        true) ∧
    (∀ h wOk aliasName value,
      (send_alias_command_to_laser (some h) wOk aliasName value).isOk = true) ∧
    (∀ h raw, (read_response (some h) raw).isOk = true) :=
  ⟨fun _ _ _ _ _ _ _ => rfl, fun _ _ _ => rfl, fun _ => rfl,
    fun _ _ _ _ _ _ _ _ => rfl, fun _ _ _ _ => rfl, fun _ _ => rfl⟩

/-- C7 (amended): `close_connection` never raises, is idempotent, and leaves
any underlying socket closed; but it never resets `_connection` to `None`,
so a client that has been opened does not return to the Disconnected state
the open-connection assertions test. -/
theorem C7_close_connection :
    (∀ conn, close_connection (close_connection conn) = close_connection conn) ∧
    (∀ conn, close_connection conn ≠ some true) ∧
    (∀ conn, (close_connection conn).isSome = conn.isSome) := by
  refine ⟨fun conn => ?_, fun conn => ?_, fun conn => ?_⟩ <;>
    cases conn <;> simp [close_connection]

/-- C7 counterexample: after opening succeeds and `close_connection` runs,
the connection attribute is still set, the open-connection precondition
assertions still pass, and the state is not the unset (`None`) one. -/
theorem C7_counterexample :
    close_connection (some true) = some false ∧
    close_connection (some true) ≠ none ∧
    read_response (close_connection (some true)) [] = .ok none := by
  refine ⟨rfl, by decide, rfl⟩

/-- C8 (amended): every wire write is the command string followed by one
appended send terminator, so it always ends in `\r\n`; and whenever the
command string does not itself end with the terminator (in particular for
terminator-free argument strings), the wire bytes end with exactly one
instance of it. An argument ending in `\r\n` defeats the exactly-one
property (see the counterexample). -/
theorem C8_single_terminator :
    (∀ wOk command tree branch function parameter value,
      send_command_to_laser (some true) wOk command tree branch function parameter value =
        .ok (wOk, cmd_str_structured command tree branch function parameter value ++
          SEND_PACKET_TERMINATOR) ∧
      endsWithL SEND_PACKET_TERMINATOR
        (cmd_str_structured command tree branch function parameter value ++
          SEND_PACKET_TERMINATOR) = true ∧
      (endsWithL SEND_PACKET_TERMINATOR
          (cmd_str_structured command tree branch function parameter value) = false →
        endsWithL (SEND_PACKET_TERMINATOR ++ SEND_PACKET_TERMINATOR)
          (cmd_str_structured command tree branch function parameter value ++
            SEND_PACKET_TERMINATOR) = false)) ∧
    (∀ wOk aliasName value,
      send_alias_command_to_laser (some true) wOk aliasName value =
        .ok (wOk, cmd_str_alias aliasName value ++ SEND_PACKET_TERMINATOR) ∧
      endsWithL SEND_PACKET_TERMINATOR
        (cmd_str_alias aliasName value ++ SEND_PACKET_TERMINATOR) = true ∧
      (endsWithL SEND_PACKET_TERMINATOR (cmd_str_alias aliasName value) = false →
        endsWithL (SEND_PACKET_TERMINATOR ++ SEND_PACKET_TERMINATOR)
          (cmd_str_alias aliasName value ++ SEND_PACKET_TERMINATOR) = false)) := by
  constructor
  · intro wOk command tree branch function parameter value
    refine ⟨rfl, endsWithL_append_self _ _, fun h => ?_⟩
    rw [endsWithL_double]
    exact h
  · intro wOk aliasName value
    refine ⟨rfl, endsWithL_append_self _ _, fun h => ?_⟩
    rw [endsWithL_double]
    exact h

/-- Witness for C8 at the concrete alias command `state` with no value. -/
theorem C8_single_terminator_witness :
    endsWithL (SEND_PACKET_TERMINATOR ++ SEND_PACKET_TERMINATOR)
      (cmd_str_alias (strToBytes "state") [] ++ SEND_PACKET_TERMINATOR) = false :=
  (C8_single_terminator.2 true (strToBytes "state") []).2.2 (by decide)

/-- C8 counterexample: an alias whose name already ends in `\r\n` produces
wire bytes ending in two consecutive send terminators, so the written bytes
do not end with exactly one instance of the terminator. -/
theorem C8_counterexample :
    send_alias_command_to_laser (some true) true [97, 13, 10] [] =
      .ok (true, [97, 13, 10, 13, 10]) ∧
    endsWithL (SEND_PACKET_TERMINATOR ++ SEND_PACKET_TERMINATOR)
      [97, 13, 10, 13, 10] = true := by
  refine ⟨by decide, by decide⟩

/-- C9: the alias encoding is `"{name} {value}"` when the value is non-empty
and `"{name}"` otherwise, terminator appended; the alias command
`("state", "")` encodes to `b"state\r\n"`. -/
theorem C9_alias_encoding :
    (∀ wOk aliasName value,
      send_alias_command_to_laser (some true) wOk aliasName value =
        .ok (wOk,
          (if value ≠ [] then aliasName ++ strToBytes " " ++ value else aliasName) ++
            SEND_PACKET_TERMINATOR)) ∧
    send_alias_command_to_laser (some true) true (strToBytes "state") [] =
      .ok (true, strToBytes "state\r\n") := by
  constructor
  · intro wOk aliasName value
    have e3 : strToBytes " " = [32] := rfl
    rw [e3]
    by_cases hv : value = [] <;>
      simp [send_alias_command_to_laser, cmd_str_alias, hv]
  · decide

/-- C10: the non-empty device response `"-1"` parses as base 16 to `-1`, so
`get_current_state` returns `-1` both for it and for an absent response:
the sentinel is reachable from a successfully parsed response and the two
cases are indistinguishable from the return value. -/
theorem C10_sentinel_ambiguity :
    read_response (some true) (strToBytes "-1" ++ READ_PACKET_TERMINATOR) =
        .ok (some (strToBytes "-1")) ∧
    strToBytes "-1" ≠ [] ∧
    int_base16 (strToBytes "-1") = some (-1) ∧
    get_current_state (some true) true (strToBytes "-1" ++ READ_PACKET_TERMINATOR) =
        .ok (-1) ∧
    get_current_state (some true) true [] = .ok (-1) ∧
    get_current_state (some true) true (strToBytes "-1" ++ READ_PACKET_TERMINATOR) =
        get_current_state (some true) true [] := by
  refine ⟨by decide, by decide, by decide, by decide, by decide, by decide⟩

end Merion
